import Mathlib

/-!
Shallow embedding of the real-estate harvesting and analysis scripts
(data_analyzer.py, leilao_scraper.py, vivareal_scraper.py) of the
repository, together with theorems settling the frozen claims about the
cleaning pipeline, the statistics aggregator and the two scrapers.

Machine floats of the original pandas/numpy code are modelled as exact
values: NaN, plus and minus infinity, or a finite rational.  All code
paths exercised by the theorems stay inside exact rational arithmetic,
so no rounding behaviour is lost by this choice.
-/

namespace ImoveisModel

/-- A value of a pandas float column: NaN, one of the two infinities, or
a finite value represented exactly as a rational. -/
inductive PVal where
  | nan
  | pinf
  | ninf
  | num (q : ℚ)
deriving DecidableEq

/-- Whether the value is NaN (pandas isna on a float column). -/
def PVal.isNan : PVal → Bool
  | .nan => true
  | _ => false

/-- IEEE greater-or-equal as used by the pandas comparison operators:
any comparison involving NaN is false. -/
def pge : PVal → PVal → Bool
  | .nan, _ => false
  | _, .nan => false
  | .pinf, _ => true
  | .ninf, .ninf => true
  | .ninf, _ => false
  | .num _, .ninf => true
  | .num a, .num b => decide (b ≤ a)
  | .num _, .pinf => false

/-- IEEE less-or-equal, defined by flipping pge. -/
def ple (a b : PVal) : Bool := pge b a

/-- IEEE addition: NaN propagates, opposite infinities give NaN. -/
def padd : PVal → PVal → PVal
  | .nan, _ => .nan
  | _, .nan => .nan
  | .pinf, .ninf => .nan
  | .ninf, .pinf => .nan
  | .pinf, _ => .pinf
  | _, .pinf => .pinf
  | .ninf, _ => .ninf
  | _, .ninf => .ninf
  | .num a, .num b => .num (a + b)

/-- IEEE subtraction: NaN propagates, same-signed infinities give NaN. -/
def psub : PVal → PVal → PVal
  | .nan, _ => .nan
  | _, .nan => .nan
  | .pinf, .pinf => .nan
  | .ninf, .ninf => .nan
  | .pinf, _ => .pinf
  | .ninf, _ => .ninf
  | .num _, .pinf => .ninf
  | .num _, .ninf => .pinf
  | .num a, .num b => .num (a - b)

/-- IEEE multiplication: NaN propagates, zero times infinity is NaN. -/
def pmul : PVal → PVal → PVal
  | .nan, _ => .nan
  | _, .nan => .nan
  | .pinf, .pinf => .pinf
  | .pinf, .ninf => .ninf
  | .ninf, .pinf => .ninf
  | .ninf, .ninf => .pinf
  | .pinf, .num b => if b = 0 then .nan else if 0 < b then .pinf else .ninf
  | .num a, .pinf => if a = 0 then .nan else if 0 < a then .pinf else .ninf
  | .ninf, .num b => if b = 0 then .nan else if 0 < b then .ninf else .pinf
  | .num a, .ninf => if a = 0 then .nan else if 0 < a then .ninf else .pinf
  | .num a, .num b => .num (a * b)

/-- IEEE division as numpy performs it on float columns: NaN propagates,
a nonzero finite value divided by zero gives a signed infinity, zero
divided by zero gives NaN, infinity divided by infinity gives NaN.
The model has no signed zero; comparison results are unaffected. -/
def pdiv : PVal → PVal → PVal
  | .nan, _ => .nan
  | _, .nan => .nan
  | .pinf, .pinf => .nan
  | .pinf, .ninf => .nan
  | .ninf, .pinf => .nan
  | .ninf, .ninf => .nan
  | .pinf, .num b => if 0 ≤ b then .pinf else .ninf
  | .ninf, .num b => if 0 ≤ b then .ninf else .pinf
  | .num _, .pinf => .num 0
  | .num _, .ninf => .num 0
  | .num a, .num b =>
      if b = 0 then (if a = 0 then .nan else if 0 < a then .pinf else .ninf)
      else .num (a / b)

/-- Insert one non-NaN value into an ascending list (insertion sort step,
ordering minus-infinity below all finite values below plus-infinity). -/
def insertP (a : PVal) : List PVal → List PVal
  | [] => [a]
  | b :: rest => if ple a b then a :: b :: rest else b :: insertP a rest

/-- Ascending sort of the non-NaN values of a column, as numpy sorts the
data underlying a quantile computation. -/
def sortP : List PVal → List PVal
  | [] => []
  | a :: rest => insertP a (sortP rest)

/-- Floor of a nonnegative rational as a natural number.  Quantile
positions q * (n - 1) for q in the unit interval are nonnegative, which
is the only use site. -/
def floorNatQ (q : ℚ) : ℕ := q.num.natAbs / q.den

/-- Series.quantile of pandas with the default linear interpolation:
NaN entries are dropped, remaining values are sorted ascending; an empty
series yields NaN; the result at virtual position q * (n - 1) linearly
interpolates between the two neighbouring order statistics. -/
def quantileP (q : ℚ) (xs : List PVal) : PVal :=
  let fs := sortP (xs.filter (fun v => !v.isNan))
  match fs with
  | [] => .nan
  | _ :: _ =>
    let n := fs.length
    let pos : ℚ := q * ((n : ℚ) - 1)
    let i : ℕ := floorNatQ pos
    let frac : ℚ := pos - (i : ℚ)
    if frac = 0 then fs.getD i .nan
    else padd (fs.getD i .nan) (pmul (.num frac) (psub (fs.getD (i + 1) .nan) (fs.getD i .nan)))

/-- Sum of a list of values under IEEE addition. -/
def psum (xs : List PVal) : PVal := xs.foldr padd (.num 0)

/-- Series.mean of pandas with the default skipna: NaN entries dropped,
the mean of an empty series is NaN. -/
def pmean (xs : List PVal) : PVal :=
  let fs := xs.filter (fun v => !v.isNan)
  match fs with
  | [] => .nan
  | _ :: _ => pdiv (psum fs) (.num (fs.length : ℚ))

/-- Series.median of pandas: NaN entries dropped, empty series yields
NaN, even length averages the two middle order statistics. -/
def pmedian (xs : List PVal) : PVal :=
  let fs := sortP (xs.filter (fun v => !v.isNan))
  match fs with
  | [] => .nan
  | _ :: _ =>
    let n := fs.length
    if n % 2 = 1 then fs.getD (n / 2) .nan
    else pdiv (padd (fs.getD (n / 2 - 1) .nan) (fs.getD (n / 2) .nan)) (.num 2)

/-- One cell of a loosely typed dataframe column before type coercion:
missing (None), an already numeric value, or a character string. -/
inductive Cell where
  | cnone
  | cnum (v : PVal)
  | cstr (s : List Char)
deriving DecidableEq

/-- Numeric value of a digit character. -/
def digitVal (c : Char) : Option ℕ :=
  if decide ('0' ≤ c) && decide (c ≤ '9') then some (c.toNat - Char.toNat '0') else none

/-- Reads a run that must consist solely of digits, returning its value
and its length; fails on any non-digit character. -/
def digitsVal : List Char → Option (ℕ × ℕ)
  | [] => some (0, 0)
  | c :: rest =>
    match digitVal c, digitsVal rest with
    | some d, some (v, k) => some (d * 10 ^ k + v, k + 1)
    | _, _ => none

/-- Splitting a string at every decimal point, the helper the numeral
parser uses to detect a second point. -/
def splitOnDot : List Char → List (List Char)
  | [] => [[]]
  | c :: rest =>
    let r := splitOnDot rest
    if c = '.' then [] :: r
    else
      match r with
      | h :: t => (c :: h) :: t
      | [] => [[c]]

/-- The Python float constructor restricted to the sanitized numerals the
scrapers produce: digit characters with at most one decimal point and at
least one digit.  Any other character, a second point, or a lone point
fails, modelling the ValueError of float. -/
def parsePyFloat (s : List Char) : Option ℚ :=
  match splitOnDot s with
  | [ip] =>
    match digitsVal ip with
    | some (v, k) => if k = 0 then none else some ((v : ℚ))
    | none => none
  | [ip, fp] =>
    match digitsVal ip, digitsVal fp with
    | some (vi, ki), some (vf, kf) =>
        if ki = 0 && kf = 0 then none
        else some ((vi : ℚ) + (vf : ℚ) / ((10 : ℚ) ^ kf))
    | _, _ => none
  | _ => none

/-- pd.to_numeric with errors coerce on one cell: numeric values pass
through, None becomes NaN, a string parses as a decimal numeral or
coerces to NaN on failure. -/
def toNumeric : Cell → PVal
  | .cnone => .nan
  | .cnum v => v
  | .cstr s =>
    match parsePyFloat s with
    | some q => .num q
    | none => .nan

/-- Numeric reading of a cell of an already coerced column (the cells are
cnum after to_numeric; the other constructors read as NaN). -/
def cellPV : Cell → PVal
  | .cnone => .nan
  | .cnum v => v
  | .cstr _ => .nan

/-- The two listing sources the analyzer distinguishes; load_data tags
every loaded frame with exactly one of them via the fonte column. -/
inductive Fonte where
  | leilao
  | tradicional
deriving DecidableEq

/-- The Python exceptions the modelled dataframe code can raise. -/
inductive PyErr where
  | keyError
deriving DecidableEq

/-- One dataframe row, restricted to the columns the cleaning pipeline
and the statistics reader touch.  The preco_m2 column is numeric as both
scrapers and both serialization formats produce it, hence typed PVal
directly; the remaining price and area columns are loosely typed cells
prior to coercion.  Textual columns (titulo, endereco, tipo_imovel and
so on) play no role in any claim and are omitted. -/
structure RawRow where
  preco_atual : Cell
  preco_inicial : Cell
  preco : Cell
  area : Cell
  preco_m2 : PVal
deriving DecidableEq

/-- A dataframe: its rows plus presence flags for each modelled column
(a pandas frame built from scraped records has exactly the key set of
those records, so column presence is data dependent). -/
structure DFrame where
  rows : List RawRow
  has_preco_atual : Bool
  has_preco_inicial : Bool
  has_preco : Bool
  has_area : Bool
  has_preco_m2 : Bool
deriving DecidableEq

/-- Line 97 of data_analyzer.py, for the leilao source:
df_clean.get applied at column level.  DataFrame.get returns the whole
preco_atual column when that column exists, else the whole preco_inicial
column when that exists, else the scalar None broadcast over the new
preco column.  For any other source the frame is unchanged. -/
def cleanStep1 (fonte : Fonte) (df : DFrame) : DFrame :=
  if fonte = Fonte.leilao then
    if df.has_preco_atual then
      { df with rows := df.rows.map (fun r => { r with preco := r.preco_atual }),
                has_preco := true }
    else if df.has_preco_inicial then
      { df with rows := df.rows.map (fun r => { r with preco := r.preco_inicial }),
                has_preco := true }
    else
      { df with rows := df.rows.map (fun r => { r with preco := Cell.cnone }),
                has_preco := true }
  else df

/-- Lines 100 to 103 of data_analyzer.py: pd.to_numeric with errors
coerce over each numeric column that exists.  Of the modelled columns the
numeric_columns list names preco and area (quartos, banheiros and vagas
are not modelled; preco_atual, preco_inicial and preco_m2 are not in the
list and are left untouched). -/
def cleanStep2 (df : DFrame) : DFrame :=
  { df with rows := df.rows.map (fun r =>
      { r with
        preco := if df.has_preco then Cell.cnum (toNumeric r.preco) else r.preco,
        area := if df.has_area then Cell.cnum (toNumeric r.area) else r.area }) }

/-- Lines 105 to 107 of data_analyzer.py: when the preco_m2 column is
absent or entirely NaN, it is recomputed as the elementwise division of
the preco column by the area column; reading a missing preco or area
column raises KeyError. -/
def cleanStep3 (df : DFrame) : Except PyErr DFrame :=
  if !df.has_preco_m2 || df.rows.all (fun r => r.preco_m2.isNan) then
    if df.has_preco && df.has_area then
      let rows2 := df.rows.map (fun r =>
        { r with preco_m2 := pdiv (cellPV r.preco) (cellPV r.area) })
      .ok { df with rows := rows2, has_preco_m2 := true }
    else .error PyErr.keyError
  else .ok df

/-- The preco_m2 column of a frame. -/
def pm2Column (df : DFrame) : List PVal := df.rows.map (fun r => r.preco_m2)

/-- Line 113 of data_analyzer.py for given bounds: keep exactly the rows
whose preco_m2 satisfies both comparisons (NaN rows fail both). -/
def outlierFilter (q1 q3 : PVal) (df : DFrame) : DFrame :=
  { df with rows := df.rows.filter (fun r => pge r.preco_m2 q1 && ple r.preco_m2 q3) }

/-- Lines 109 to 113 of data_analyzer.py: when the preco_m2 column
exists, compute the 0.01 and 0.99 quantiles of that column of this very
frame and filter with them. -/
def cleanStep4 (df : DFrame) : DFrame :=
  if df.has_preco_m2 then
    outlierFilter (quantileP (1 / 100) (pm2Column df)) (quantileP (99 / 100) (pm2Column df)) df
  else df

/-- The frame reaching the outlier-rejection step: steps 1 to 3 of
clean_dataframe, carrying the pre-rejection preco_m2 distribution. -/
def preOutlier (fonte : Fonte) (df : DFrame) : Except PyErr DFrame :=
  cleanStep3 (cleanStep2 (cleanStep1 fonte df))

/-- The method clean_dataframe of data_analyzer.py on the modelled
columns (the final tipo_imovel canonicalization touches no modelled
column and is omitted). -/
def clean_dataframe (fonte : Fonte) (df : DFrame) : Except PyErr DFrame :=
  (preOutlier fonte df).map cleanStep4

/-- A row of the combined dataset: the row together with the value of
its fonte column, which load_data sets to leilao or tradicional on the
whole frame it loads. -/
structure TRow where
  fonte : Fonte
  row : RawRow
deriving DecidableEq

/-- The mutable state of an ImovelAnalyzer instance. -/
structure AState where
  df_leiloes : Option DFrame
  df_tradicional : Option DFrame
  df_combined : Option (List TRow)
deriving DecidableEq

/-- Tag every row of a frame with its source, as carried by the fonte
column of the concatenated frame. -/
def tagRows (f : Fonte) (df : DFrame) : List TRow :=
  df.rows.map (fun r => { fonte := f, row := r })

/-- The method combine_datasets of data_analyzer.py: concatenate the
loaded frames in order leilao then tradicional; when neither frame is
loaded the combined frame is left unchanged. -/
def combine_datasets (s : AState) : AState :=
  let ds := (match s.df_leiloes with
              | some d => tagRows Fonte.leilao d
              | none => [])
            ++ (match s.df_tradicional with
              | some d => tagRows Fonte.tradicional d
              | none => [])
  if s.df_leiloes.isSome || s.df_tradicional.isSome then
    { s with df_combined := some ds }
  else s

/-- The method clean_data of data_analyzer.py: clean each loaded frame
with its own fonte, then combine.  The whole body sits in a try block
whose except clause only logs, so the second component is the exception
reaching the caller: by construction always none.  Assignments completed
before a raising statement persist, as in Python. -/
def clean_data (s : AState) : AState × Option PyErr :=
  match s.df_leiloes with
  | some dl =>
    match clean_dataframe Fonte.leilao dl with
    | .error _ => (s, none)
    | .ok dl2 =>
      let s1 := { s with df_leiloes := some dl2 }
      match s1.df_tradicional with
      | some dt =>
        match clean_dataframe Fonte.tradicional dt with
        | .error _ => (s1, none)
        | .ok dt2 => (combine_datasets { s1 with df_tradicional := some dt2 }, none)
      | none => (combine_datasets s1, none)
  | none =>
    match s.df_tradicional with
    | some dt =>
      match clean_dataframe Fonte.tradicional dt with
      | .error _ => (s, none)
      | .ok dt2 => (combine_datasets { s with df_tradicional := some dt2 }, none)
    | none => (combine_datasets s, none)

/-- The per-source entry of the statistics map built by
generate_statistics. -/
structure SourceStats where
  total_imoveis : ℕ
  preco_medio : PVal
  preco_mediano : PVal
  preco_m2_medio : PVal
  preco_m2_mediano : PVal
  area_media : PVal
deriving DecidableEq

/-- The comparacao entry of the statistics map. -/
structure Comparacao where
  diferenca_preco_medio : PVal
  diferenca_preco_m2_medio : PVal
deriving DecidableEq

/-- The statistics map: one optional entry per source key that can occur
in the fonte column, plus the optional comparacao entry. -/
structure Stats where
  leilao : Option SourceStats
  tradicional : Option SourceStats
  comparacao : Option Comparacao
deriving DecidableEq

/-- The rows of the combined frame belonging to one source. -/
def rowsOf (f : Fonte) (rows : List TRow) : List RawRow :=
  (rows.filter (fun t => t.fonte = f)).map (fun t => t.row)

/-- Lines 154 to 161 of data_analyzer.py: descriptive statistics of one
source slice of the combined frame. -/
def sourceStatsOf (rows : List RawRow) : SourceStats :=
  { total_imoveis := rows.length
    preco_medio := pmean (rows.map (fun r => cellPV r.preco))
    preco_mediano := pmedian (rows.map (fun r => cellPV r.preco))
    preco_m2_medio := pmean (rows.map (fun r => r.preco_m2))
    preco_m2_mediano := pmedian (rows.map (fun r => r.preco_m2))
    area_media := pmean (rows.map (fun r => cellPV r.area)) }

/-- Lines 163 to 168 of data_analyzer.py: the percentage differences,
added exactly when both the leilao and the tradicional key are present
in the statistics map. -/
def comparacaoOf (l t : SourceStats) : Comparacao :=
  { diferenca_preco_medio :=
      pmul (pdiv (psub t.preco_medio l.preco_medio) t.preco_medio) (PVal.num 100)
    diferenca_preco_m2_medio :=
      pmul (pdiv (psub t.preco_m2_medio l.preco_m2_medio) t.preco_m2_medio) (PVal.num 100) }

/-- The method generate_statistics of data_analyzer.py: returns none
when no combined frame is loaded; otherwise builds one statistics entry
per distinct value of the fonte column and appends the comparacao entry
exactly when both source keys are present.  The file side effects are
outside the model. -/
def generate_statistics (comb : Option (List TRow)) : Option Stats :=
  match comb with
  | none => none
  | some rows =>
    let sl := if rows.any (fun t => t.fonte = Fonte.leilao)
              then some (sourceStatsOf (rowsOf Fonte.leilao rows)) else none
    let st := if rows.any (fun t => t.fonte = Fonte.tradicional)
              then some (sourceStatsOf (rowsOf Fonte.tradicional rows)) else none
    let comp := match sl, st with
      | some a, some b => some (comparacaoOf a b)
      | _, _ => none
    some { leilao := sl, tradicional := st, comparacao := comp }

/-- Number of source keys present in the statistics map built from the
combined rows (the keys other than comparacao). -/
def sourceKeyCount (rows : List TRow) : ℕ :=
  (if rows.any (fun t => t.fonte = Fonte.leilao) then 1 else 0)
  + (if rows.any (fun t => t.fonte = Fonte.tradicional) then 1 else 0)

/-- A parsed detail document, modelled as the partial map from a CSS
selector to the stripped text of the first element select_one finds for
it; none means no element matches the selector. -/
def Doc : Type := List (List Char × List Char)

/-- BeautifulSoup select_one followed by get_text with strip, on the
document model. -/
def selectOne (doc : Doc) (sel : List Char) : Option (List Char) :=
  (doc.find? (fun p => p.1 = sel)).map (fun p => p.2)

/-- The safe_extract helper shared by both scrapers: select_one and text
extraction inside a try block; on the document model this is selectOne
(a valid selector raises nothing). -/
def safe_extract (doc : Doc) (sel : List Char) : Option (List Char) :=
  selectOne doc sel

/-- Whether a character is a decimal digit. -/
def isDigitC (c : Char) : Bool := decide ('0' ≤ c) && decide (c ≤ '9')

/-- The shared monetary sanitizer of both scrapers: re.sub removing every
character that is not a digit, a comma or a point, then replacing each
comma with a point. -/
def sanitizeMoney (s : List Char) : List Char :=
  (s.filter (fun c => isDigitC c || c = ',' || c = '.')).map
    (fun c => if c = ',' then '.' else c)

/-- Replacing the decimal comma of a captured area group with a point. -/
def commaToDot (s : List Char) : List Char :=
  s.map (fun c => if c = ',' then '.' else c)

/-- Whether a character is regex whitespace. -/
def isSpaceC (c : Char) : Bool :=
  c = ' ' || c = '\t' || c = '\n' || c = '\r'

/-- Greedy digit run at the head of the string: the run and the rest. -/
def takeDigits (s : List Char) : List Char × List Char :=
  match s with
  | [] => ([], [])
  | c :: rest =>
    if isDigitC c then
      let (d, r) := takeDigits rest
      (c :: d, r)
    else ([], c :: rest)

/-- After the captured group, the area regex requires optional
whitespace followed by the mandatory letter m (the square sign after it
is optional and does not affect the captured group). -/
def areaTailOk (s : List Char) : Bool :=
  match s.dropWhile isSpaceC with
  | 'm' :: _ => true
  | _ => false

/-- Matching the area pattern at the current position: a digit run,
optionally a comma and a second digit run, then the tail.  The regex
prefers consuming the optional comma group and falls back to dropping
it; shortening a greedy digit run can never help, because the character
following a shortened run is a digit, which neither the whitespace class
nor the letter m can consume, so no digit-run backtracking is needed. -/
def areaMatchAt (s : List Char) : Option (List Char) :=
  let (d1, r1) := takeDigits s
  if d1 = [] then none
  else
    let withOpt : Option (List Char) :=
      match r1 with
      | ',' :: r2 =>
        let (d2, r3) := takeDigits r2
        if d2 = [] then none
        else if areaTailOk r3 then some (d1 ++ [','] ++ d2) else none
      | _ => none
    match withOpt with
    | some g => some g
    | none => if areaTailOk r1 then some d1 else none

/-- re.search with the area pattern: leftmost position with a match
wins, scanning left to right. -/
def areaSearch : List Char → Option (List Char)
  | [] => none
  | c :: rest =>
    match areaMatchAt (c :: rest) with
    | some g => some g
    | none => areaSearch rest

/-- First run of digits anywhere in the string, as re.search with a
digit-run group finds it. -/
def digitsSearch : List Char → Option (List Char)
  | [] => none
  | c :: rest =>
    if isDigitC c then some (takeDigits (c :: rest)).1 else digitsSearch rest

/-- The ordered price selector chain of VivaRealScraper. -/
def price_selectors : List (List Char) :=
  [(".price").toList, (".valor").toList, ("[data-testid=\"price\"]").toList,
   (".js-price").toList]

/-- The ordered area selector chain of VivaRealScraper. -/
def area_selectors : List (List Char) :=
  [(".area").toList, (".metragem").toList, ("[data-testid=\"area\"]").toList]

/-- The ordered address selector chain of VivaRealScraper. -/
def address_selectors : List (List Char) :=
  [(".address").toList, (".endereco").toList, ("[data-testid=\"address\"]").toList]

/-- The loop body of VivaRealScraper extract_price over the remaining
selector chain: the first selector whose element exists is committed to;
its text is sanitized, an empty sanitized text returns None and a parse
failure raises ValueError which the enclosing try turns into None, in
both cases without trying the later selectors. -/
def extract_price_vr_go (doc : Doc) : List (List Char) → Option ℚ
  | [] => none
  | sel :: rest =>
    match selectOne doc sel with
    | some txt =>
      let cleaned := sanitizeMoney txt
      if cleaned = [] then none else parsePyFloat cleaned
    | none => extract_price_vr_go doc rest

/-- The method extract_price of VivaRealScraper. -/
def extract_price_vr (doc : Doc) : Option ℚ :=
  extract_price_vr_go doc price_selectors

/-- The loop body of VivaRealScraper extract_area over the remaining
selector chain: a selector whose element is missing, whose text is
empty, or whose text the area regex does not match falls through to the
next selector; a regex match returns the float of the captured group
with the comma normalized (that float call cannot fail on a captured
group, and a hypothetical failure would raise into the enclosing try and
yield None, which the Option result also models). -/
def extract_area_vr_go (doc : Doc) : List (List Char) → Option ℚ
  | [] => none
  | sel :: rest =>
    match safe_extract doc sel with
    | some txt =>
      if txt = [] then extract_area_vr_go doc rest
      else
        match areaSearch txt with
        | some grp => parsePyFloat (commaToDot grp)
        | none => extract_area_vr_go doc rest
    | none => extract_area_vr_go doc rest

/-- The method extract_area of VivaRealScraper. -/
def extract_area_vr (doc : Doc) : Option ℚ :=
  extract_area_vr_go doc area_selectors

/-- The method extract_address of VivaRealScraper: first selector whose
text is truthy wins; empty or missing text falls through. -/
def extract_address_vr_go (doc : Doc) : List (List Char) → Option (List Char)
  | [] => none
  | sel :: rest =>
    match safe_extract doc sel with
    | some txt => if txt = [] then extract_address_vr_go doc rest else some txt
    | none => extract_address_vr_go doc rest

/-- The method extract_address of VivaRealScraper over its chain. -/
def extract_address_vr (doc : Doc) : Option (List Char) :=
  extract_address_vr_go doc address_selectors

/-- The method extract_number of VivaRealScraper: truthy text, then the
first digit run read as an int. -/
def extract_number_vr (doc : Doc) (sel : List Char) : Option ℕ :=
  match safe_extract doc sel with
  | some txt =>
    if txt = [] then none
    else
      match digitsSearch txt with
      | some ds =>
        match digitsVal ds with
        | some (v, _) => some v
        | none => none
      | none => none
  | none => none

/-- A failure of one HTTP fetch, as the requests exceptions raised by
the get call or by raise_for_status.  Both scrapers catch every one of
them in the same except clause. -/
inductive FetchErr where
  | timeout
  | http5xx
  | http4xx
  | connReset
deriving DecidableEq

/-- The transient failure classes named by the specification (timeout,
5xx, connection reset); a plain 4xx is non-transient. -/
def FetchErr.transient : FetchErr → Bool
  | .timeout => true
  | .http5xx => true
  | .connReset => true
  | .http4xx => false

/-- A fetched index page, reduced to the href attributes of its anchor
elements (find_all of anchors with an href). -/
structure IndexPage where
  hrefs : List (List Char)

/-- The listing-path marker tested against each href. -/
def imovelMarker : List Char := ("/imovel/").toList

/-- Boolean prefix test on character lists. -/
def leadsWith : List Char → List Char → Bool
  | [], _ => true
  | _ :: _, [] => false
  | a :: as, b :: bs => a = b && leadsWith as bs

/-- Python substring membership test on character lists. -/
def hasSub (pat : List Char) : List Char → Bool
  | [] => decide (pat = [])
  | c :: rest => leadsWith pat (c :: rest) || hasSub pat rest

/-- The inner link loop of get_imoveis_urls: every truthy href
containing the listing marker is joined against the base url and
appended unless already collected. -/
def addLinks (join : List Char → List Char) : List (List Char) → List (List Char) → List (List Char)
  | [], urls => urls
  | h :: rest, urls =>
    if !decide (h = []) && hasSub imovelMarker h then
      let fu := join h
      if urls.contains fu then addLinks join rest urls
      else addLinks join rest (urls ++ [fu])
    else addLinks join rest urls

/-- The page loop of get_imoveis_urls of LeilaoScraper.  The fetch
oracle maps a page number to a document or a raised exception; the
urljoin library call is the join parameter.  Beside the collected urls
the model returns the trace of page numbers fetched, in order: each
iteration issues exactly one fetch, and any exception is caught by the
except clause which continues with the next page. -/
def get_imoveis_urls_go (fetch : ℕ → Except FetchErr IndexPage)
    (join : List Char → List Char) :
    ℕ → ℕ → List (List Char) → List ℕ → List (List Char) × List ℕ
  | _, 0, urls, trace => (urls, trace)
  | page, fuel + 1, urls, trace =>
    match fetch page with
    | .error _ => get_imoveis_urls_go fetch join (page + 1) fuel urls (trace ++ [page])
    | .ok doc =>
        get_imoveis_urls_go fetch join (page + 1) fuel (addLinks join doc.hrefs urls)
          (trace ++ [page])

/-- The method get_imoveis_urls of LeilaoScraper, pages 1 to max_pages. -/
def get_imoveis_urls (fetch : ℕ → Except FetchErr IndexPage)
    (join : List Char → List Char) (max_pages : ℕ) : List (List Char) × List ℕ :=
  get_imoveis_urls_go fetch join 1 max_pages [] []

/-- The record extract_imovel_data of LeilaoScraper builds from one
detail page (the collection timestamp is not modelled). -/
structure LeilaoRec where
  url : List Char
  titulo : Option (List Char)
  preco_inicial : Option ℚ
  preco_atual : Option ℚ
  endereco : Option (List Char)
  area : Option ℚ
  tipo_imovel : Option (List Char)
  data_leilao : Option (List Char)
  situacao : Option (List Char)
  descricao : Option (List Char)
deriving DecidableEq

/-- The method extract_price of LeilaoScraper: single selector; missing
or empty text yields None, otherwise the text is sanitized, an empty
sanitized text returns None and a float failure raises into the
enclosing try which returns None. -/
def extract_price_lei (doc : Doc) (sel : List Char) : Option ℚ :=
  match safe_extract doc sel with
  | none => none
  | some txt =>
    if txt = [] then none
    else
      let cleaned := sanitizeMoney txt
      if cleaned = [] then none else parsePyFloat cleaned

/-- The truthiness-based or of two optional texts, as the Python or
between two safe_extract results: the first operand wins when it is a
non-empty text. -/
def orText : Option (List Char) → Option (List Char) → Option (List Char)
  | some t, b => if t = [] then b else some t
  | none, b => b

/-- The method extract_area of LeilaoScraper: text of the area selector
or of the metragem selector, then the area regex; no match or falsy text
yields None. -/
def extract_area_lei (doc : Doc) : Option ℚ :=
  match orText (safe_extract doc ((".area").toList))
        (safe_extract doc ((".metragem").toList)) with
  | some txt =>
    if txt = [] then none
    else
      match areaSearch txt with
      | some grp => parsePyFloat (commaToDot grp)
      | none => none
  | none => none

/-- The method extract_imovel_data of LeilaoScraper: one fetch of the
url; a raised fetch exception is caught and None is returned.  The
second component is the trace of urls fetched by the call: always
exactly one, with no retry. -/
def extract_imovel_data (fetchD : List Char → Except FetchErr Doc)
    (url : List Char) : Option LeilaoRec × List (List Char) :=
  match fetchD url with
  | .error _ => (none, [url])
  | .ok doc =>
    (some
      { url := url
        titulo := safe_extract doc (("h1").toList)
        preco_inicial := extract_price_lei doc ((".preco-inicial").toList)
        preco_atual := extract_price_lei doc ((".preco-atual").toList)
        endereco := safe_extract doc ((".endereco").toList)
        area := extract_area_lei doc
        tipo_imovel := safe_extract doc ((".tipo-imovel").toList)
        data_leilao := safe_extract doc ((".data-leilao").toList)
        situacao := safe_extract doc ((".situacao").toList)
        descricao := safe_extract doc ((".descricao").toList) }, [url])

/-- The extraction loop shared by both scrape entry points: for each
url, extract; when a record comes back, append it to the instance data
list; a None result only advances the loop. -/
def scrapeLoop {α : Type} (extract : List Char → Option α) :
    List (List Char) → List α → List α
  | [], data => data
  | u :: rest, data =>
    match extract u with
    | some d => scrapeLoop extract rest (data ++ [d])
    | none => scrapeLoop extract rest data

/-- The urls scrape_leiloes iterates over: the discovered urls,
truncated to max_imoveis when longer. -/
def leiloesUrls (fetchI : ℕ → Except FetchErr IndexPage)
    (join : List Char → List Char) (max_pages max_imoveis : ℕ) : List (List Char) :=
  let urls := (get_imoveis_urls fetchI join max_pages).1
  if urls.length > max_imoveis then urls.take max_imoveis else urls

/-- The method scrape_leiloes of LeilaoScraper: discover urls, truncate
to the cap, extract each and append successes to the data attribute of
the instance.  The Python method body ends without a return statement,
so the first component is its return value None; the second is the new
data list. -/
def scrape_leiloes (fetchI : ℕ → Except FetchErr IndexPage)
    (fetchD : List Char → Except FetchErr Doc) (join : List Char → List Char)
    (max_pages max_imoveis : ℕ) (data0 : List LeilaoRec) : PUnit × List LeilaoRec :=
  (PUnit.unit,
   scrapeLoop (fun u => (extract_imovel_data fetchD u).1)
     (leiloesUrls fetchI join max_pages max_imoveis) data0)

/-- The record extract_imovel_data of VivaRealScraper builds from one
detail page (the collection timestamp, the constant fonte string and the
caracteristicas list are not modelled; none is read by any claim or by
the statistics). -/
structure VRRec where
  url : List Char
  titulo : Option (List Char)
  preco : Option ℚ
  endereco : Option (List Char)
  bairro : Option (List Char)
  cidade : Option (List Char)
  area : Option ℚ
  quartos : Option ℕ
  banheiros : Option ℕ
  vagas : Option ℕ
  tipo_imovel : Option (List Char)
  descricao : Option (List Char)
  preco_m2 : Option ℚ
deriving DecidableEq

/-- Python truthiness of an optional float: None and 0.0 are falsy. -/
def truthyQ : Option ℚ → Bool
  | some q => !decide (q = 0)
  | none => false

/-- The method extract_imovel_data of VivaRealScraper: one fetch, None
on a raised fetch exception; the derived preco_m2 is filled only when
both preco and area are truthy. -/
def extract_imovel_data_vr (fetchD : List Char → Except FetchErr Doc)
    (url : List Char) : Option VRRec :=
  match fetchD url with
  | .error _ => none
  | .ok doc =>
    let preco := extract_price_vr doc
    let area := extract_area_vr doc
    some
      { url := url
        titulo := safe_extract doc (("h1").toList)
        preco := preco
        endereco := extract_address_vr doc
        bairro := safe_extract doc ((".neighborhood").toList)
        cidade := safe_extract doc ((".city").toList)
        area := area
        quartos := extract_number_vr doc ((".bedrooms").toList)
        banheiros := extract_number_vr doc ((".bathrooms").toList)
        vagas := extract_number_vr doc ((".parking").toList)
        tipo_imovel := safe_extract doc ((".property-type").toList)
        descricao := safe_extract doc ((".description").toList)
        preco_m2 :=
          if truthyQ preco && truthyQ area then
            match preco, area with
            | some p, some a => some (p / a)
            | _, _ => none
          else none }

/-- The method scrape_mercado_tradicional of VivaRealScraper.  The
search and set-based deduplication phase is network driven; its result
is supplied as the discovered url list.  The list is truncated to the
cap, each url is extracted and successes are appended to the data
attribute; the method returns None. -/
def scrape_mercado_tradicional (discovered : List (List Char))
    (fetchD : List Char → Except FetchErr Doc) (max_imoveis : ℕ)
    (data0 : List VRRec) : PUnit × List VRRec :=
  let urls := if discovered.length > max_imoveis then discovered.take max_imoveis
              else discovered
  (PUnit.unit, scrapeLoop (fun u => extract_imovel_data_vr fetchD u) urls data0)

/-! ## Helper lemmas shared by several claims -/

/-- The extraction loop appends exactly the successful extractions, in
url order, to the initial data list. -/
theorem scrapeLoop_eq {α : Type} (extract : List Char → Option α) :
    ∀ (urls : List (List Char)) (data0 : List α),
      scrapeLoop extract urls data0 = data0 ++ urls.filterMap extract := by
  intro urls
  induction urls with
  | nil => intro data0; simp [scrapeLoop]
  | cons u rest ih =>
    intro data0
    cases h : extract u with
    | none => simp [scrapeLoop, h, ih]
    | some d => simp [scrapeLoop, h, ih]

/-- The page loop fetches each page of the remaining range exactly once,
whatever the fetch outcomes are. -/
theorem get_imoveis_urls_go_trace (fetch : ℕ → Except FetchErr IndexPage)
    (join : List Char → List Char) :
    ∀ (fuel page : ℕ) (urls : List (List Char)) (trace : List ℕ),
      (get_imoveis_urls_go fetch join page fuel urls trace).2
        = trace ++ List.range' page fuel := by
  intro fuel
  induction fuel with
  | zero => intro page urls trace; simp [get_imoveis_urls_go, List.range']
  | succ n ih =>
    intro page urls trace
    cases h : fetch page with
    | error e => simp [get_imoveis_urls_go, h, ih, List.range']
    | ok doc => simp [get_imoveis_urls_go, h, ih, List.range']

/-- Reading back the canonical price column after filling it with None
yields the constant None column. -/
theorem map_preco_set_cnone (rows : List RawRow) :
    (rows.map (fun r => { r with preco := Cell.cnone })).map (fun r => r.preco)
      = rows.map (fun _ => Cell.cnone) := by
  induction rows with
  | nil => rfl
  | cons a t ih => simp only [List.map_cons, ih]

/-- A frame accepted by the derivation step always carries the preco_m2
column afterwards. -/
theorem cleanStep3_has_pm2 {df out : DFrame} (h : cleanStep3 df = .ok out) :
    out.has_preco_m2 = true := by
  unfold cleanStep3 at h
  split at h
  · split at h
    · cases h; rfl
    · cases h
  · rename_i hc
    cases h
    simp only [Bool.or_eq_true, Bool.not_eq_true', not_or] at hc
    exact eq_true_of_ne_false hc.1

/-- On a frame carrying the preco_m2 column, the outlier step is the
filter with the quantile bounds of that same frame. -/
theorem cleanStep4_of_has_pm2 {df : DFrame} (h : df.has_preco_m2 = true) :
    cleanStep4 df
      = outlierFilter (quantileP (1 / 100) (pm2Column df))
          (quantileP (99 / 100) (pm2Column df)) df := by
  unfold cleanStep4
  rw [h]
  rfl

/-- Every row retained by a cleaning pass lies, in membership and in
bounds, inside the filter over the pre-rejection frame of that pass. -/
theorem retained_row_bounds (fonte : Fonte) (df pre out : DFrame)
    (hpre : preOutlier fonte df = .ok pre)
    (hout : clean_dataframe fonte df = .ok out) :
    ∀ r ∈ out.rows,
      pge r.preco_m2 (quantileP (1 / 100) (pm2Column pre)) = true ∧
      ple r.preco_m2 (quantileP (99 / 100) (pm2Column pre)) = true := by
  intro r hr
  have hout2 : cleanStep4 pre = out := by
    unfold clean_dataframe at hout
    rw [hpre] at hout
    simpa [Except.map] using hout
  have hpm2 : pre.has_preco_m2 = true := cleanStep3_has_pm2 hpre
  rw [cleanStep4_of_has_pm2 hpm2] at hout2
  rw [← hout2] at hr
  simp only [outlierFilter, List.mem_filter, Bool.and_eq_true] at hr
  exact ⟨hr.2.1, hr.2.2⟩

/-! ## C1: outlier bounds are the per-source, per-pass quantiles -/

/-- C1: in every per-source cleaning pass, every listing retained by
clean_dataframe has a price-per-area between the 0.01 and the 0.99
quantile of the pre-rejection price-per-area column of that same pass
of that same source frame — the bounds are computed from the frame
being cleaned, never from a cross-source or global distribution. -/
theorem c1_outlier_bounds_per_source (fonte : Fonte) (df pre out : DFrame)
    (hpre : preOutlier fonte df = .ok pre)
    (hout : clean_dataframe fonte df = .ok out) :
    ∀ r ∈ out.rows,
      pge r.preco_m2 (quantileP (1 / 100) (pm2Column pre)) = true ∧
      ple r.preco_m2 (quantileP (99 / 100) (pm2Column pre)) = true :=
  retained_row_bounds fonte df pre out hpre hout

/-- Input frame of the C1 witness: one auction listing with current
price 3000 and area 2. -/
def dfW1 : DFrame :=
  { rows := [{ preco_atual := Cell.cnum (PVal.num 3000), preco_inicial := Cell.cnone,
               preco := Cell.cnone, area := Cell.cnum (PVal.num 2),
               preco_m2 := PVal.nan }],
    has_preco_atual := true, has_preco_inicial := false, has_preco := false,
    has_area := true, has_preco_m2 := false }

/-- Pre-rejection frame the C1 witness reaches: canonical price chosen
and coerced, price-per-area derived as 1500. -/
def preW1 : DFrame :=
  { rows := [{ preco_atual := Cell.cnum (PVal.num 3000), preco_inicial := Cell.cnone,
               preco := Cell.cnum (PVal.num 3000), area := Cell.cnum (PVal.num 2),
               preco_m2 := PVal.num 1500 }],
    has_preco_atual := true, has_preco_inicial := false, has_preco := true,
    has_area := true, has_preco_m2 := true }

/-- The single row retained by the C1 witness cleaning pass. -/
def rowW1 : RawRow :=
  { preco_atual := Cell.cnum (PVal.num 3000), preco_inicial := Cell.cnone,
    preco := Cell.cnum (PVal.num 3000), area := Cell.cnum (PVal.num 2),
    preco_m2 := PVal.num 1500 }

/-- Witness for C1: the concrete pass on dfW1 succeeds, retains rowW1,
and rowW1 lies between the quantile bounds of its own pass. -/
theorem c1_witness :
    pge rowW1.preco_m2 (quantileP (1 / 100) (pm2Column preW1)) = true ∧
    ple rowW1.preco_m2 (quantileP (99 / 100) (pm2Column preW1)) = true :=
  c1_outlier_bounds_per_source Fonte.leilao dfW1 preW1 preW1
    (by norm_num +decide [preOutlier, cleanStep1, cleanStep2, cleanStep3, toNumeric,
      cellPV, pdiv, dfW1, preW1, PVal.isNan])
    (by norm_num +decide [clean_dataframe, preOutlier, cleanStep1, cleanStep2, cleanStep3,
      cleanStep4, outlierFilter, quantileP, pm2Column, sortP, insertP, floorNatQ,
      toNumeric, cellPV, pdiv, padd, psub, pmul, pge, ple, PVal.isNan, Except.map,
      dfW1, preW1])
    rowW1 (by decide)

/-! ## C2: listings with missing or nonpositive area -/

/-- One auction row of the C2 examples with the given area cell. -/
def rowX2 (a : Cell) : RawRow :=
  { preco_atual := Cell.cnum (PVal.num 3000), preco_inicial := Cell.cnone,
    preco := Cell.cnone, area := a, preco_m2 := PVal.nan }

/-- Input frame of the C2 counterexample: three listings with area -1
and one listing with missing area. -/
def dfX2 : DFrame :=
  { rows := [rowX2 (Cell.cnum (PVal.num (-1))), rowX2 (Cell.cnum (PVal.num (-1))),
             rowX2 (Cell.cnum (PVal.num (-1))), rowX2 Cell.cnone],
    has_preco_atual := true, has_preco_inicial := false, has_preco := false,
    has_area := true, has_preco_m2 := false }

/-- Counterexample to C2 as stated: cleaning dfX2 retains three listings
whose area is -1, so not strictly positive, each carrying the non-null
derived price-per-area -3000; and the listing with missing area is not
retained in the cleaned dataset at all (the output has three rows, not
four), contradicting both the no-non-null-derived-value clause and the
retained-for-price-statistics clause of the claim. -/
theorem c2_counterexample :
    (clean_dataframe Fonte.leilao dfX2).map
        (fun d => d.rows.map (fun r => (r.area, r.preco_m2)))
      = .ok [(Cell.cnum (PVal.num (-1)), PVal.num (-3000)),
             (Cell.cnum (PVal.num (-1)), PVal.num (-3000)),
             (Cell.cnum (PVal.num (-1)), PVal.num (-3000))] := by
  norm_num +decide [clean_dataframe, preOutlier, cleanStep1, cleanStep2, cleanStep3,
    cleanStep4, outlierFilter, quantileP, pm2Column, sortP, insertP, floorNatQ,
    toNumeric, cellPV, pdiv, padd, psub, pmul, pge, ple, PVal.isNan, Except.map,
    dfX2, rowX2]

/-- C2 amended: a listing with a null (NaN) price-per-area is never
retained in the cleaned dataset — so it is excluded from price-per-area
and from price-only statistics alike rather than kept; and whenever the
price-per-area column is derived (it was absent from the input frame),
the derived value of a listing is the elementwise division of price by
area, which is null whenever the area is missing.  A listing whose area
is present but not strictly positive can instead receive a non-null
derived value. -/
theorem c2_amended :
    (∀ (fonte : Fonte) (df out : DFrame), clean_dataframe fonte df = .ok out →
       ∀ r ∈ out.rows, r.preco_m2.isNan = false) ∧
    (∀ df out : DFrame, df.has_preco_m2 = false → cleanStep3 df = .ok out →
       pm2Column out = df.rows.map (fun r => pdiv (cellPV r.preco) (cellPV r.area))) ∧
    (∀ r : RawRow, (cellPV r.area).isNan = true →
       (pdiv (cellPV r.preco) (cellPV r.area)).isNan = true) := by
  refine ⟨?_, ?_, ?_⟩
  · intro fonte df out hout r hr
    obtain ⟨pre, hpre⟩ : ∃ pre, preOutlier fonte df = .ok pre := by
      unfold clean_dataframe at hout
      cases h : preOutlier fonte df with
      | error e => rw [h] at hout; cases hout
      | ok pre => exact ⟨pre, rfl⟩
    have h1 := retained_row_bounds fonte df pre out hpre hout r hr
    cases hv : r.preco_m2 with
    | nan =>
      exfalso
      have := h1.1
      rw [hv] at this
      simp [pge] at this
    | pinf => rfl
    | ninf => rfl
    | num q => rfl
  · intro df out hno h3
    unfold cleanStep3 at h3
    rw [hno] at h3
    simp only [Bool.not_false, Bool.true_or, if_true] at h3
    split at h3
    · cases h3
      simp [pm2Column]
    · cases h3
  · intro r ha
    have hv : cellPV r.area = PVal.nan := by
      cases h : cellPV r.area <;> rw [h] at ha <;> first | rfl | simp [PVal.isNan] at ha
    rw [hv]
    cases hp : cellPV r.preco <;> simp [pdiv, PVal.isNan]

/-- The retained row shape of the C2 witness. -/
def rowOutX2 : RawRow :=
  { preco_atual := Cell.cnum (PVal.num 3000), preco_inicial := Cell.cnone,
    preco := Cell.cnum (PVal.num 3000), area := Cell.cnum (PVal.num (-1)),
    preco_m2 := PVal.num (-3000) }

/-- The cleaned output frame of dfX2. -/
def outX2 : DFrame :=
  { rows := [rowOutX2, rowOutX2, rowOutX2],
    has_preco_atual := true, has_preco_inicial := false, has_preco := true,
    has_area := true, has_preco_m2 := true }

/-- The frame dfX2 after canonical-price selection and coercion, right
before the derivation step. -/
def dfB2 : DFrame :=
  { rows := [{ rowOutX2 with preco_m2 := PVal.nan },
             { rowOutX2 with preco_m2 := PVal.nan },
             { rowOutX2 with preco_m2 := PVal.nan },
             { rowOutX2 with area := Cell.cnum PVal.nan, preco_m2 := PVal.nan }],
    has_preco_atual := true, has_preco_inicial := false, has_preco := true,
    has_area := true, has_preco_m2 := false }

/-- The frame dfB2 after the derivation step. -/
def preX2 : DFrame :=
  { rows := [rowOutX2, rowOutX2, rowOutX2,
             { rowOutX2 with area := Cell.cnum PVal.nan, preco_m2 := PVal.nan }],
    has_preco_atual := true, has_preco_inicial := false, has_preco := true,
    has_area := true, has_preco_m2 := true }

/-- Witness for the amended C2, instantiating its three parts on the
concrete frames of the counterexample pass. -/
theorem c2_amended_witness :
    rowOutX2.preco_m2.isNan = false ∧
    pm2Column preX2 = dfB2.rows.map (fun r => pdiv (cellPV r.preco) (cellPV r.area)) ∧
    (pdiv (cellPV (rowX2 Cell.cnone).preco) (cellPV (rowX2 Cell.cnone).area)).isNan
      = true :=
  ⟨c2_amended.1 Fonte.leilao dfX2 outX2
      (by norm_num +decide [clean_dataframe, preOutlier, cleanStep1, cleanStep2,
        cleanStep3, cleanStep4, outlierFilter, quantileP, pm2Column, sortP, insertP,
        floorNatQ, toNumeric, cellPV, pdiv, padd, psub, pmul, pge, ple, PVal.isNan,
        Except.map, dfX2, rowX2, outX2, rowOutX2])
      rowOutX2 (by decide),
   c2_amended.2.1 dfB2 preX2 (by decide)
      (by norm_num +decide [cleanStep3, cellPV, pdiv, PVal.isNan, dfB2, preX2, rowOutX2]),
   c2_amended.2.2 (rowX2 Cell.cnone) (by decide)⟩

/-! ## C3: canonical auction price precedence -/

/-- Input frame of the C3 counterexample: the first listing has a
current price of 500 and an initial price of 100; the second listing
has no current price but an initial price of 300. -/
def dfX3 : DFrame :=
  { rows := [{ preco_atual := Cell.cnum (PVal.num 500),
               preco_inicial := Cell.cnum (PVal.num 100),
               preco := Cell.cnone, area := Cell.cnone, preco_m2 := PVal.nan },
             { preco_atual := Cell.cnone,
               preco_inicial := Cell.cnum (PVal.num 300),
               preco := Cell.cnone, area := Cell.cnone, preco_m2 := PVal.nan }],
    has_preco_atual := true, has_preco_inicial := true, has_preco := false,
    has_area := true, has_preco_m2 := false }

/-- Counterexample to C3 as stated: in a batch where the current-price
column exists, the listing lacking a current-price value gets canonical
price NaN after coercion, not its own initial price 300.  Under the
claim the second canonical price would be 300: the fallback is applied
at column level, never per listing. -/
theorem c3_counterexample :
    (cleanStep2 (cleanStep1 Fonte.leilao dfX3)).rows.map (fun r => r.preco)
      = [Cell.cnum (PVal.num 500), Cell.cnum PVal.nan] := by
  norm_num +decide [cleanStep1, cleanStep2, toNumeric, dfX3]

/-- C3 amended: the precedence between current and initial price is
resolved at column level.  When the batch has a current-price column,
every canonical price is the current-price cell of its own listing,
missing or not; only when the whole batch lacks the current-price
column does the initial-price column serve, and when both columns are
absent the canonical price column is filled with None. -/
theorem c3_amended (df : DFrame) :
    (df.has_preco_atual = true →
       (cleanStep1 Fonte.leilao df).rows.map (fun r => r.preco)
         = df.rows.map (fun r => r.preco_atual)) ∧
    (df.has_preco_atual = false → df.has_preco_inicial = true →
       (cleanStep1 Fonte.leilao df).rows.map (fun r => r.preco)
         = df.rows.map (fun r => r.preco_inicial)) ∧
    (df.has_preco_atual = false → df.has_preco_inicial = false →
       (cleanStep1 Fonte.leilao df).rows.map (fun r => r.preco)
         = df.rows.map (fun _ => Cell.cnone)) := by
  refine ⟨?_, ?_, ?_⟩
  · intro h1
    simp [cleanStep1, h1]
  · intro h1 h2
    simp [cleanStep1, h1, h2]
  · intro h1 h2
    simpa [cleanStep1, h1, h2] using map_preco_set_cnone df.rows

/-- Witness for the amended C3 on the counterexample frame, whose
current-price column exists. -/
theorem c3_amended_witness :
    (cleanStep1 Fonte.leilao dfX3).rows.map (fun r => r.preco)
      = dfX3.rows.map (fun r => r.preco_atual) :=
  (c3_amended dfX3).1 (by decide)

/-! ## C4: no InsufficientDataError ever reaches the caller -/

/-- Analyzer state of the C4 example: one loaded auction frame whose
single listing has no usable price and no usable area. -/
def exS4 : AState :=
  { df_leiloes := some
      { rows := [{ preco_atual := Cell.cnone, preco_inicial := Cell.cnone,
                   preco := Cell.cnone, area := Cell.cnone, preco_m2 := PVal.nan }],
        has_preco_atual := true, has_preco_inicial := true, has_preco := false,
        has_area := true, has_preco_m2 := false },
    df_tradicional := none, df_combined := none }

/-- Counterexample to C4 as stated: after coercion not a single listing
of the loaded frame has both a usable price and a usable area, yet
clean_data raises nothing to its caller — there is no
InsufficientDataError anywhere in the code, the except clause only
logs. -/
theorem c4_counterexample :
    (clean_data exS4).2 = none ∧
    ((match exS4.df_leiloes with
      | some df => (cleanStep2 (cleanStep1 Fonte.leilao df)).rows.all
          (fun r => (cellPV r.preco).isNan || (cellPV r.area).isNan)
      | none => false) : Bool) = true := by
  constructor
  · norm_num +decide [clean_data, clean_dataframe, preOutlier, cleanStep1, cleanStep2,
      cleanStep3, cleanStep4, outlierFilter, quantileP, pm2Column, sortP, insertP,
      floorNatQ, toNumeric, cellPV, pdiv, padd, psub, pmul, pge, ple, PVal.isNan,
      Except.map, combine_datasets, tagRows, exS4]
  · decide

/-- C4 amended: clean_data never lets any exception propagate to the
caller, whatever the analyzer state; in particular, with zero usable
listings it completes normally and leaves an empty cleaned frame. -/
theorem c4_amended :
    (∀ s : AState, (clean_data s).2 = none) ∧
    ((clean_data exS4).1.df_leiloes).map DFrame.rows = some ([] : List RawRow) := by
  constructor
  · intro s
    obtain ⟨dl, dt, dc⟩ := s
    cases dl with
    | none =>
      cases dt with
      | none => rfl
      | some t =>
        rcases h : clean_dataframe Fonte.tradicional t with e | t2 <;>
          simp [clean_data, h]
    | some l =>
      rcases h : clean_dataframe Fonte.leilao l with e | l2
      · simp [clean_data, h]
      · cases dt with
        | none => simp [clean_data, h]
        | some t =>
          rcases h2 : clean_dataframe Fonte.tradicional t with e2 | t2 <;>
            simp [clean_data, h, h2]
  · norm_num +decide [clean_data, clean_dataframe, preOutlier, cleanStep1, cleanStep2,
      cleanStep3, cleanStep4, outlierFilter, quantileP, pm2Column, sortP, insertP,
      floorNatQ, toNumeric, cellPV, pdiv, padd, psub, pmul, pge, ple, PVal.isNan,
      Except.map, combine_datasets, tagRows, exS4]

/-! ## C5: the comparison section of the statistics -/

/-- A combined row of the C5 example with the given source and
price-per-area. -/
def trow5 (f : Fonte) (pm2 : ℚ) : TRow :=
  { fonte := f,
    row := { preco_atual := Cell.cnone, preco_inicial := Cell.cnone,
             preco := Cell.cnum PVal.nan, area := Cell.cnum PVal.nan,
             preco_m2 := PVal.num pm2 } }

/-- Combined rows of the C5 example: one auction listing with
price-per-area 3000 and one traditional listing with 4000. -/
def exRows5 : List TRow :=
  [trow5 Fonte.leilao 3000, trow5 Fonte.tradicional 4000]

/-- C5: the comparison section is present exactly when exactly two
source keys are present in the statistics map (with fewer it is
omitted, and more than two cannot occur since the fonte column only
ever carries the two source tags load_data assigns); and on sources
with mean price-per-area 3000 (auction) and 4000 (traditional) the
mean price-per-area difference is (4000 - 3000) / 4000 * 100 = 25
percent. -/
theorem c5_comparison_two_sources :
    (∀ rows : List TRow,
       (generate_statistics (some rows)).map (fun st => st.comparacao.isSome)
         = some (decide (sourceKeyCount rows = 2))) ∧
    (generate_statistics (some exRows5)).map
        (fun st => st.comparacao.map (fun c => c.diferenca_preco_m2_medio))
      = some (some (PVal.num 25)) := by
  constructor
  · intro rows
    cases h1 : rows.any (fun t => t.fonte = Fonte.leilao) <;>
      cases h2 : rows.any (fun t => t.fonte = Fonte.tradicional) <;>
        simp [generate_statistics, sourceKeyCount, h1, h2]
  · norm_num +decide [generate_statistics, sourceKeyCount, sourceStatsOf, comparacaoOf,
      rowsOf, pmean, pmedian, psum, sortP, insertP, pdiv, padd, psub, pmul, pge, ple,
      PVal.isNan, exRows5, trow5]

/-! ## C9: outlier rejection is idempotent under fixed bounds -/

/-- C9: re-running the outlier-rejection step with the same quantile
bounds on the frame it produced removes nothing further — in the exact
rational model, nothing at all, which subsumes the boundary-tie
allowance of the claim. -/
theorem c9_outlier_idempotent (q1 q3 : PVal) (df : DFrame) :
    outlierFilter q1 q3 (outlierFilter q1 q3 df) = outlierFilter q1 q3 df := by
  unfold outlierFilter
  simp [List.filter_filter]

/-! ## C6: selector-fallback extraction -/

/-- Document of the C6 counterexample: the first price selector matches
an element whose text has no digits, the second matches one with the
parsable text 500. -/
def docX6 : Doc :=
  [((".price").toList, ("abc").toList), ((".valor").toList, ("500").toList)]

/-- Counterexample to C6 as stated: on docX6 the price extraction
returns None because it commits to the first selector whose element
exists even though that text fails to parse, while the second rule of
the chain, which the claim requires to be tried, would produce 500. -/
theorem c6_counterexample :
    extract_price_vr docX6 = none ∧
    extract_price_vr_go docX6 [(".valor").toList] = some 500 := by
  constructor
  · norm_num +decide [extract_price_vr, extract_price_vr_go, price_selectors,
      selectOne, sanitizeMoney, isDigitC, docX6]
  · norm_num +decide [extract_price_vr_go, selectOne, sanitizeMoney, isDigitC,
      parsePyFloat, splitOnDot, digitsVal, digitVal, docX6]

/-- C6 amended: the price chain commits to the first selector whose
element exists — when that text sanitizes to nothing or fails to parse
the field is absent without trying the later rules — whereas the area
chain does fall through to later rules when a matched text is empty or
fails the area pattern; when no rule of a chain succeeds the field is
absent (None), never zero or the empty string, and no exception reaches
the caller. -/
theorem c6_amended :
    (∀ (doc : Doc) (sel : List Char) (rest : List (List Char)) (txt : List Char),
        selectOne doc sel = some txt →
        extract_price_vr_go doc (sel :: rest)
          = (if sanitizeMoney txt = [] then none else parsePyFloat (sanitizeMoney txt))) ∧
    (∀ (doc : Doc) (sel : List Char) (rest : List (List Char)) (txt : List Char),
        selectOne doc sel = some txt → txt ≠ [] → areaSearch txt = none →
        extract_area_vr_go doc (sel :: rest) = extract_area_vr_go doc rest) ∧
    (∀ (doc : Doc) (chain : List (List Char)),
        (∀ sel ∈ chain, selectOne doc sel = none) →
        extract_price_vr_go doc chain = none) ∧
    (∀ (doc : Doc) (chain : List (List Char)),
        (∀ sel ∈ chain, selectOne doc sel = none) →
        extract_area_vr_go doc chain = none) := by
  refine ⟨?_, ?_, ?_, ?_⟩
  · intro doc sel rest txt h
    simp [extract_price_vr_go, h]
  · intro doc sel rest txt h htxt hsearch
    simp [extract_area_vr_go, safe_extract, h, htxt, hsearch]
  · intro doc chain h
    induction chain with
    | nil => rfl
    | cons sel rest ih =>
      have hs := h sel (by simp)
      simp only [extract_price_vr_go, hs]
      exact ih (fun s hsm => h s (by simp [hsm]))
  · intro doc chain h
    induction chain with
    | nil => rfl
    | cons sel rest ih =>
      have hs := h sel (by simp)
      simp only [extract_area_vr_go, safe_extract, hs]
      exact ih (fun s hsm => h s (by simp [hsm]))

/-- Witness document for the committing price rule: its first selector
matches the text 2500. -/
def docW6a : Doc := [((".price").toList, ("2500").toList)]

/-- Witness document for the area fall-through: the first area selector
matches a text without digits, the second has a proper area. -/
def docW6b : Doc :=
  [((".area").toList, ("ver planta").toList), ((".metragem").toList, ("80 m").toList)]

/-- Witness for the amended C6, instantiating its four parts on
concrete documents. -/
theorem c6_amended_witness :
    extract_price_vr_go docW6a ((".price").toList :: [(".valor").toList])
      = (if sanitizeMoney (("2500").toList) = [] then none
         else parsePyFloat (sanitizeMoney (("2500").toList))) ∧
    extract_area_vr_go docW6b ((".area").toList :: [(".metragem").toList])
      = extract_area_vr_go docW6b [(".metragem").toList] ∧
    extract_price_vr_go ([] : Doc) price_selectors = none ∧
    extract_area_vr_go ([] : Doc) area_selectors = none :=
  ⟨c6_amended.1 docW6a ((".price").toList) [(".valor").toList] (("2500").toList)
      (by decide),
   c6_amended.2.1 docW6b ((".area").toList) [(".metragem").toList]
      (("ver planta").toList) (by decide) (by decide) (by decide),
   c6_amended.2.2.1 ([] : Doc) price_selectors (by decide),
   c6_amended.2.2.2 ([] : Doc) area_selectors (by decide)⟩

/-! ## C7: no retry on failed fetches -/

/-- Fetch oracle of the C7 counterexample: every index fetch fails with
a timeout, a transient condition. -/
def fetchX7 : ℕ → Except FetchErr IndexPage := fun _ => .error FetchErr.timeout

/-- Url of the C7 counterexample. -/
def urlX7 : List Char := ("/imovel/x").toList

/-- Counterexample to C7 as stated: a timeout is transient, so the
claim requires the failing request to be retried before reporting
failure; but the page loop fetches each of the three pages exactly once
(page 1 is fetched a single time) and the detail extraction fetches its
url exactly once and returns None, with no retry anywhere. -/
theorem c7_counterexample :
    FetchErr.transient FetchErr.timeout = true ∧
    (get_imoveis_urls fetchX7 id 3).2 = [1, 2, 3] ∧
    ((get_imoveis_urls fetchX7 id 3).2.count 1) = 1 ∧
    (extract_imovel_data (fun _ => .error FetchErr.timeout) urlX7)
      = (none, [urlX7]) := by
  refine ⟨rfl, by decide, by decide, by decide⟩

/-- C7 amended: there is no retry logic at all.  Whatever the fetch
outcomes — transient or permanent — the page loop fetches every page of
the range exactly once, skipping failed pages, and the detail
extraction fetches its url exactly once, returning None on failure. -/
theorem c7_amended :
    (∀ (fetch : ℕ → Except FetchErr IndexPage) (join : List Char → List Char) (mp : ℕ),
        (get_imoveis_urls fetch join mp).2 = List.range' 1 mp) ∧
    (∀ (fetchD : List Char → Except FetchErr Doc) (url : List Char),
        (extract_imovel_data fetchD url).2 = [url]) := by
  constructor
  · intro fetch join mp
    simpa [get_imoveis_urls] using get_imoveis_urls_go_trace fetch join mp 1 [] []
  · intro fetchD url
    unfold extract_imovel_data
    cases fetchD url <;> rfl

/-! ## C8: no HarvestResult is returned to the caller -/

/-- Index oracle yielding one listing link. -/
def fetchIA : ℕ → Except FetchErr IndexPage :=
  fun _ => .ok { hrefs := [("/imovel/a").toList] }

/-- Index oracle yielding two listing links. -/
def fetchIB : ℕ → Except FetchErr IndexPage :=
  fun _ => .ok { hrefs := [("/imovel/a").toList, ("/imovel/b").toList] }

/-- Detail oracle on which every fetch fails. -/
def fetchDX : List Char → Except FetchErr Doc := fun _ => .error FetchErr.http5xx

/-- Counterexample to C8 as stated: two harvesting runs with different
attempted-url counts (one and two) and different extraction-failure
counts return the very same value — the Python None — so the value
returned to the caller carries neither the collected listings nor the
attempted count nor the failure count; those live only in the instance
state and the log. -/
theorem c8_counterexample :
    (scrape_leiloes fetchIA fetchDX id 1 10 []).1
      = (scrape_leiloes fetchIB fetchDX id 1 10 []).1 ∧
    (leiloesUrls fetchIA id 1 10).length = 1 ∧
    (leiloesUrls fetchIB id 1 10).length = 2 := by
  refine ⟨rfl, by decide, by decide⟩

/-- C8 amended: a harvesting run, even one in which fetches or
extractions fail, completes and appends exactly the successfully
extracted listings to the instance data list — a partial result rather
than all-or-nothing — but the entry point returns None: no
HarvestResult, attempted count or failure count reaches the caller. -/
theorem c8_amended :
    (∀ (fetchI : ℕ → Except FetchErr IndexPage) (fetchD : List Char → Except FetchErr Doc)
       (join : List Char → List Char) (mp mi : ℕ) (data0 : List LeilaoRec),
       scrape_leiloes fetchI fetchD join mp mi data0
         = (PUnit.unit, data0 ++ (leiloesUrls fetchI join mp mi).filterMap
             (fun u => (extract_imovel_data fetchD u).1))) ∧
    (∀ (discovered : List (List Char)) (fetchD : List Char → Except FetchErr Doc)
       (mi : ℕ) (data0 : List VRRec),
       scrape_mercado_tradicional discovered fetchD mi data0
         = (PUnit.unit, data0
             ++ (if discovered.length > mi then discovered.take mi
                 else discovered).filterMap (fun u => extract_imovel_data_vr fetchD u))) := by
  constructor
  · intro fetchI fetchD join mp mi data0
    simp [scrape_leiloes, scrapeLoop_eq]
  · intro discovered fetchD mi data0
    simp [scrape_mercado_tradicional, scrapeLoop_eq]

/-! ## C10: the instance data list accumulates across runs -/

/-- C10: each scraper instance accumulates into one data list that no
operation clears: running an entry point twice on the same instance
appends the listings of both runs after the preexisting data, so with
identical oracles the listings of the first run appear again, repeated,
in the final data list (and hence in any output saved from it). -/
theorem c10_data_accumulates :
    (∀ (fetchI : ℕ → Except FetchErr IndexPage) (fetchD : List Char → Except FetchErr Doc)
       (join : List Char → List Char) (mp mi : ℕ) (data0 : List LeilaoRec),
       (scrape_leiloes fetchI fetchD join mp mi
           (scrape_leiloes fetchI fetchD join mp mi data0).2).2
         = data0
           ++ (leiloesUrls fetchI join mp mi).filterMap
               (fun u => (extract_imovel_data fetchD u).1)
           ++ (leiloesUrls fetchI join mp mi).filterMap
               (fun u => (extract_imovel_data fetchD u).1)) ∧
    (∀ (discovered : List (List Char)) (fetchD : List Char → Except FetchErr Doc)
       (mi : ℕ) (data0 : List VRRec),
       (scrape_mercado_tradicional discovered fetchD mi
           (scrape_mercado_tradicional discovered fetchD mi data0).2).2
         = data0
           ++ (if discovered.length > mi then discovered.take mi
               else discovered).filterMap (fun u => extract_imovel_data_vr fetchD u)
           ++ (if discovered.length > mi then discovered.take mi
               else discovered).filterMap (fun u => extract_imovel_data_vr fetchD u)) := by
  constructor
  · intro fetchI fetchD join mp mi data0
    simp [scrape_leiloes, scrapeLoop_eq, List.append_assoc]
  · intro discovered fetchD mi data0
    simp [scrape_mercado_tradicional, scrapeLoop_eq, List.append_assoc]

end ImoveisModel
